import Mathlib

/-!
Verification development for CertStreamMonitor (src/CertStreamMonitor.py).

Shallow embedding of the event-classification and deduplication pipeline:
the CertStream callback `print_callback`, the per-hostname keyword scoring
(`re.findall` restricted to literal patterns, then `len(set(...))`), the
blacklist suppression, the dedup-store check-then-insert, and the two output
channels (stdout lines for full detections, the debug log for sub-threshold
ones).  Stateful code is modelled by explicit state passing; Python
exceptions are modelled by `Except`.  Timestamps are kept as raw integer
values (the ISO formatting done by the `datetime` library is not part of
this repository's logic).
-/

namespace CertStreamMonitor

/-- One step of `re.findall` for a LITERAL (metacharacter-free) pattern:
scan the character list left to right, at each position emit the pattern if
it is a prefix of the remaining input and then skip past the match
(non-overlapping), otherwise advance one character.  `fuel` bounds the
recursion; `fuel = s.length` is always enough since every step consumes at
least one character.  Only called with a non-empty pattern. -/
def findallLitAux (pat : List Char) : Nat → List Char → List (List Char)
  | 0, _ => []
  | _ + 1, [] => []
  | fuel + 1, c :: rest =>
    if pat.isPrefixOf (c :: rest) then
      pat :: findallLitAux pat fuel (rest.drop (pat.length - 1))
    else
      findallLitAux pat fuel rest

/-- `re.findall(pat, s)` for a literal pattern, as used at lines 129-130 of
the source.  Python's `re.findall` with the empty pattern returns one empty
match at every position, i.e. `len(s) + 1` empty strings. -/
def re_findall_lit (pat s : String) : List String :=
  if pat = "" then List.replicate (s.length + 1) ""
  else (findallLitAux pat.toList s.toList.length s.toList).map String.mk

/-- `message['data']['leaf_cert']` fields read by the callback.
`all_domains` is `none` when the field is missing from the event
(accessing it then raises `KeyError`). -/
structure LeafCert where
  all_domains : Option (List String)
  subject_aggregated : String
  issuer_aggregated : String
  fingerprint : String
  not_before : Int
deriving DecidableEq, Repr

/-- A CertStream message as read by `print_callback`. -/
structure Message where
  message_type : String
  data : LeafCert
deriving DecidableEq, Repr

/-- The configuration globals set by `ConfAnalysis` (lines 41-82).
`DetectionThreshold` is an `Int`: nothing in the source constrains its
sign. -/
structure Config where
  DBFile : String := ""
  TABLEname : String := ""
  LogFile : String := ""
  LogLevel : String := ""
  LogType : String := "file"
  SearchKeywords : String := ""
  BlacklistKeywords : String := ""
  DetectionThreshold : Int := 1
  ACTServer : String := ""
  Proxy_Host : String := ""
  Proxy_Port : String := ""
  Proxy_Username : String := ""
  Proxy_Password : String := ""
deriving DecidableEq, Repr

/-- A row of the detection table (lines 140-151): domain is the key; SAN is
always stored empty; the issuer column receives the certificate SUBJECT
aggregated string; times kept as raw values. -/
structure DetectionRecord where
  domain : String
  san : String
  issuer : String
  fingerprint : String
  startTime : Int
  firstSeen : Int
deriving DecidableEq, Repr

/-- One operator-visible stdout line (line 152): wall-clock time, hostname,
empty SAN, the certificate ISSUER aggregated string, fingerprint, cert start
time. -/
structure StdoutLine where
  time : Int
  host : String
  san : String
  issuer : String
  fingerprint : String
  startTime : Int
deriving DecidableEq, Repr

/-- One diagnostic debug-log line (line 157): hostname, empty SAN, issuer
aggregated string, fingerprint, cert start time. -/
structure DebugLine where
  host : String
  san : String
  issuer : String
  fingerprint : String
  startTime : Int
deriving DecidableEq, Repr

/-- Python exceptions that can escape the modelled code. -/
inductive PyError where
  /-- `UnboundLocalError`: `all_domains` read without having been assigned. -/
  | unboundLocal
  /-- `KeyError`: a missing field of the message dictionary was accessed. -/
  | keyError
  /-- An exception raised by the SQLite layer (storage unavailable). -/
  | storeError
deriving DecidableEq, Repr

/-- The dedup store: the rows of the detection table, plus an availability
flag modelling whether the storage backend currently works. -/
structure Store where
  records : List DetectionRecord
  available : Bool
deriving DecidableEq, Repr

/-- Modelled from the spec: `utils/sqlite.py` is not under src/.  The
Dedup Store contract says `exists(domain) -> bool`, surfaced to the caller
as the count compared against 0 at line 150; a lookup on unavailable
storage raises. -/
def SQLiteVerifyEntry (st : Store) (domain : String) : Except PyError Nat :=
  if st.available then
    .ok (if domain ∈ st.records.map DetectionRecord.domain then 1 else 0)
  else .error .storeError

/-- Modelled from the spec: `utils/sqlite.py` is not under src/.  The
Dedup Store contract says `insert(record)` adds a new DetectionRecord; an
insert on unavailable storage raises. -/
def SQLiteInsert (st : Store) (r : DetectionRecord) : Except PyError Store :=
  if st.available then .ok { st with records := st.records ++ [r] }
  else .error .storeError

/-- The full per-process state touched by the callback: the dedup store and
the two output channels. -/
structure CState where
  store : Store
  stdout : List StdoutLine
  debugLog : List DebugLine
deriving DecidableEq, Repr

/-- Lines 127-129: `is_blacklisted` starts `False` and is only assigned the
(truthiness of the) `re.findall` result when `BlacklistKeywords` is
non-empty. -/
def is_blacklisted (cfg : Config) (host : String) : Bool :=
  if cfg.BlacklistKeywords = "" then false
  else !(re_findall_lit cfg.BlacklistKeywords host).isEmpty

/-- Lines 130-131: `FindNb = len(set(re.findall(SearchKeywords, host)))` —
the number of DISTINCT matched substrings. -/
def FindNb (cfg : Config) (host : String) : Nat :=
  (re_findall_lit cfg.SearchKeywords host).dedup.length

/-- Lines 140-148: the row inserted into the detection table.  The issuer
column is populated from `leaf_cert.subject.aggregated`; `firstSeen` is the
wall clock `now`. -/
def detection_record (now : Int) (msg : Message) (host : String) : DetectionRecord :=
  { domain := host
    san := ""
    issuer := msg.data.subject_aggregated
    fingerprint := msg.data.fingerprint
    startTime := msg.data.not_before
    firstSeen := now }

/-- Line 152: the operator-visible stdout line; its issuer field is
`leaf_cert.issuer.aggregated`. -/
def print_line (now : Int) (msg : Message) (host : String) : StdoutLine :=
  { time := now
    host := host
    san := ""
    issuer := msg.data.issuer_aggregated
    fingerprint := msg.data.fingerprint
    startTime := msg.data.not_before }

/-- Line 157: the debug-log line for a sub-threshold match; its issuer field
is `leaf_cert.issuer.aggregated`. -/
def debug_line (msg : Message) (host : String) : DebugLine :=
  { host := host
    san := ""
    issuer := msg.data.issuer_aggregated
    fingerprint := msg.data.fingerprint
    startTime := msg.data.not_before }

/-- Lines 140-153: the full-detection branch body — verify the entry, and
when absent insert the record and write one stdout line; when present do
nothing.  A store exception propagates (there is no try/except in the
callback). -/
def storeAndPrint (now : Int) (msg : Message) (host : String) (st : CState) :
    Except PyError CState :=
  (SQLiteVerifyEntry st.store host).bind fun n =>
    if n = 0 then
      (SQLiteInsert st.store (detection_record now msg host)).bind fun store' =>
        .ok { st with store := store'
                      stdout := st.stdout ++ [print_line now msg host] }
    else .ok st

/-- Lines 126-157: the per-hostname body of the `for host in all_domains`
loop — blacklist flag, distinct-match count, then the ordered branches:
blacklisted-and-at-threshold is skipped (`continue`), at-threshold goes to
the store, strictly-between-0-and-threshold writes one debug line, zero
matches do nothing. -/
def processHost (cfg : Config) (now : Int) (msg : Message) (host : String)
    (st : CState) : Except PyError CState :=
  if is_blacklisted cfg host = true ∧
      (FindNb cfg host : Int) ≥ cfg.DetectionThreshold then
    .ok st
  else if (FindNb cfg host : Int) ≥ cfg.DetectionThreshold then
    storeAndPrint now msg host st
  else if 0 < FindNb cfg host ∧
      (FindNb cfg host : Int) < cfg.DetectionThreshold then
    .ok { st with debugLog := st.debugLog ++ [debug_line msg host] }
  else .ok st

/-- The `for host in all_domains` loop: hostnames processed left to right; an
exception aborts the loop and escapes. -/
def processHosts (cfg : Config) (now : Int) (msg : Message) :
    List String → CState → Except PyError CState
  | [], st => .ok st
  | h :: hs, st => (processHost cfg now msg h st).bind (processHosts cfg now msg hs)

/-- Lines 115-157, `print_callback`: heartbeats return immediately;
certificate updates bind `all_domains` (a missing field raises `KeyError`);
ANY OTHER message type leaves `all_domains` unassigned, so the `for` loop at
line 126 raises `UnboundLocalError`.  There is no exception handler in the
callback. -/
def print_callback (cfg : Config) (now : Int) (message : Message)
    (st : CState) : Except PyError CState :=
  if message.message_type = "heartbeat" then .ok st
  else if message.message_type = "certificate_update" then
    match message.data.all_domains with
    | some ds => processHosts cfg now message ds st
    | none => .error .keyError
  else .error .unboundLocal

/-- Re-delivery of the same hostname `n` times (at-least-once delivery from
the upstream feed). -/
def repeatProcess (cfg : Config) (now : Int) (msg : Message) (host : String) :
    Nat → CState → Except PyError CState
  | 0, st => .ok st
  | n + 1, st => (processHost cfg now msg host st).bind (repeatProcess cfg now msg host n)

/-- Lines 41-82, `ConfAnalysis`: copies every field produced by the parser
into the globals, validating NOTHING; a parser exception is caught and
merely logged, leaving the globals unset (modelled as `none`).  The parser
itself (`utils/confparser.py`) is not under src/ and is modelled from the
spec as an external collaborator producing either a `Config` or an error. -/
def ConfAnalysis (parsed : Except String Config) : Option Config :=
  match parsed with
  | .ok c => some c
  | .error _ => none

/-- Lines 161-198, `main`: reaches `certstream.listen_for_events` (feed
consumption) exactly when the configuration globals were set and the log
type is one of the two supported values; otherwise a logged error path is
taken before the listen call.  No check of `DetectionThreshold` occurs. -/
def mainStartsConsuming (parsed : Except String Config) : Bool :=
  match ConfAnalysis parsed with
  | none => false
  | some c => c.LogType == "file" || c.LogType == "syslog"

/-! Concrete fixtures used by witnesses and counterexamples. -/

/-- The empty initial state: fresh table, storage available, no output yet. -/
def st0 : CState :=
  { store := { records := [], available := true }, stdout := [], debugLog := [] }

/-- A leaf certificate with the given domain-list field. -/
def leaf0 (ds : Option (List String)) : LeafCert :=
  { all_domains := ds
    subject_aggregated := "/CN=x.com"
    issuer_aggregated := "/C=US/O=CA/CN=Issuing CA"
    fingerprint := "AB:CD"
    not_before := 5 }

/-- Search keyword `paypal`, threshold 2, no blacklist (the spec's concrete
scenario configuration). -/
def cfg4 : Config := { SearchKeywords := "paypal", DetectionThreshold := 2 }

/-- The spec's concrete scenario event. -/
def msg4 : Message :=
  { message_type := "certificate_update"
    data := leaf0 (some ["secure-paypal-paypal-login.com", "example.com"]) }

/-- Search keyword `paypal`, threshold 1, no blacklist. -/
def cfgA : Config := { SearchKeywords := "paypal", DetectionThreshold := 1 }

/-- A certificate-update event for the single domain `paypal.com`. -/
def msgA : Message :=
  { message_type := "certificate_update", data := leaf0 (some ["paypal.com"]) }

/-- State whose store already holds the record for `paypal.com`. -/
def stR : CState :=
  { store := { records := [detection_record 0 msgA "paypal.com"], available := true }
    stdout := []
    debugLog := [] }

/-- State whose storage backend is unavailable: every lookup/insert raises. -/
def stU : CState :=
  { store := { records := [], available := false }, stdout := [], debugLog := [] }

/-- A heartbeat message. -/
def msgHb : Message := { message_type := "heartbeat", data := leaf0 none }

/-- A message whose type is neither heartbeat nor certificate_update. -/
def msgOther : Message := { message_type := "dns_entries", data := leaf0 none }

/-- A certificate-update message missing the domain-list field. -/
def msgNoDomains : Message := { message_type := "certificate_update", data := leaf0 none }

/-- Blacklist `bad`, search `pay`, threshold 1. -/
def cfgB : Config :=
  { SearchKeywords := "pay", BlacklistKeywords := "bad", DetectionThreshold := 1 }

/-- Blacklist `bad`, search `pay`, threshold 2: a blacklisted host with one
match sits strictly between 0 and the threshold. -/
def cfgB2 : Config :=
  { SearchKeywords := "pay", BlacklistKeywords := "bad", DetectionThreshold := 2 }

/-- A parsed configuration with a NON-POSITIVE detection threshold and a
supported log type. -/
def cfgT0 : Config :=
  { SearchKeywords := "paypal", DetectionThreshold := 0, LogType := "file" }

/-! Helper lemmas about the branches of `processHost` and the store. -/

lemma processHost_blacklist_full (cfg : Config) (now : Int) (msg : Message)
    (host : String) (st : CState)
    (hbl : is_blacklisted cfg host = true)
    (hge : (FindNb cfg host : Int) ≥ cfg.DetectionThreshold) :
    processHost cfg now msg host st = .ok st := by
  unfold processHost
  rw [if_pos ⟨hbl, hge⟩]

lemma processHost_full (cfg : Config) (now : Int) (msg : Message)
    (host : String) (st : CState)
    (hbl : is_blacklisted cfg host = false)
    (hge : (FindNb cfg host : Int) ≥ cfg.DetectionThreshold) :
    processHost cfg now msg host st = storeAndPrint now msg host st := by
  have hnc : ¬(is_blacklisted cfg host = true ∧
      (FindNb cfg host : Int) ≥ cfg.DetectionThreshold) := by
    rintro ⟨h, -⟩
    rw [hbl] at h
    exact absurd h (by decide)
  unfold processHost
  rw [if_neg hnc, if_pos hge]

lemma processHost_sub (cfg : Config) (now : Int) (msg : Message)
    (host : String) (st : CState)
    (h1 : 0 < FindNb cfg host)
    (h2 : (FindNb cfg host : Int) < cfg.DetectionThreshold) :
    processHost cfg now msg host st =
      .ok { st with debugLog := st.debugLog ++ [debug_line msg host] } := by
  have hlt : ¬((FindNb cfg host : Int) ≥ cfg.DetectionThreshold) := not_le.mpr h2
  have hnc : ¬(is_blacklisted cfg host = true ∧
      (FindNb cfg host : Int) ≥ cfg.DetectionThreshold) := fun hc => hlt hc.2
  unfold processHost
  rw [if_neg hnc, if_neg hlt, if_pos ⟨h1, h2⟩]

lemma storeAndPrint_present (now : Int) (msg : Message) (host : String) (st : CState)
    (hav : st.store.available = true)
    (hmem : host ∈ st.store.records.map DetectionRecord.domain) :
    storeAndPrint now msg host st = .ok st := by
  simp [storeAndPrint, SQLiteVerifyEntry, hav, hmem, Except.bind]

lemma storeAndPrint_absent (now : Int) (msg : Message) (host : String) (st : CState)
    (hav : st.store.available = true)
    (habs : host ∉ st.store.records.map DetectionRecord.domain) :
    storeAndPrint now msg host st =
      .ok { st with
            store := { st.store with
                       records := st.store.records ++ [detection_record now msg host] }
            stdout := st.stdout ++ [print_line now msg host] } := by
  simp [storeAndPrint, SQLiteVerifyEntry, SQLiteInsert, hav, habs, Except.bind]

lemma storeAndPrint_unavailable (now : Int) (msg : Message) (host : String) (st : CState)
    (hav : st.store.available = false) :
    storeAndPrint now msg host st = .error .storeError := by
  simp [storeAndPrint, SQLiteVerifyEntry, hav, Except.bind]

lemma print_callback_cert (cfg : Config) (now : Int) (msg : Message) (st : CState)
    (ds : List String)
    (hcu : msg.message_type = "certificate_update")
    (hds : msg.data.all_domains = some ds) :
    print_callback cfg now msg st = processHosts cfg now msg ds st := by
  unfold print_callback
  rw [if_neg (by rw [hcu]; decide), if_pos hcu, hds]

lemma processHost_preserve (cfg : Config) (now : Int) (msg : Message)
    (host : String) (st : CState)
    (hav : st.store.available = true)
    (hp : (FindNb cfg host : Int) ≥ cfg.DetectionThreshold →
          is_blacklisted cfg host = false →
          host ∈ st.store.records.map DetectionRecord.domain) :
    ∃ st', processHost cfg now msg host st = .ok st' ∧
      st'.store = st.store ∧ st'.stdout = st.stdout := by
  unfold processHost
  split_ifs with h1 h2 h3
  · exact ⟨st, rfl, rfl, rfl⟩
  · have hbl : is_blacklisted cfg host = false := by
      cases hb : is_blacklisted cfg host
      · rfl
      · exact absurd ⟨hb, h2⟩ h1
    exact ⟨st, storeAndPrint_present now msg host st hav (hp h2 hbl), rfl, rfl⟩
  · exact ⟨{ st with debugLog := st.debugLog ++ [debug_line msg host] }, rfl, rfl, rfl⟩
  · exact ⟨st, rfl, rfl, rfl⟩

lemma processHosts_preserve (cfg : Config) (now : Int) (msg : Message)
    (ds : List String) :
    ∀ st : CState, st.store.available = true →
      (∀ d ∈ ds, (FindNb cfg d : Int) ≥ cfg.DetectionThreshold →
        is_blacklisted cfg d = false →
        d ∈ st.store.records.map DetectionRecord.domain) →
      ∃ st', processHosts cfg now msg ds st = .ok st' ∧
        st'.store = st.store ∧ st'.stdout = st.stdout := by
  induction ds with
  | nil =>
    intro st hav hp
    exact ⟨st, rfl, rfl, rfl⟩
  | cons h hs ih =>
    intro st hav hp
    obtain ⟨st1, heq1, hstore1, hout1⟩ :=
      processHost_preserve cfg now msg h st hav (hp h (by simp))
    have hav1 : st1.store.available = true := by rw [hstore1]; exact hav
    have hp1 : ∀ d ∈ hs, (FindNb cfg d : Int) ≥ cfg.DetectionThreshold →
        is_blacklisted cfg d = false →
        d ∈ st1.store.records.map DetectionRecord.domain := by
      intro d hd hge hbl
      rw [hstore1]
      exact hp d (by simp [hd]) hge hbl
    obtain ⟨st2, heq2, hstore2, hout2⟩ := ih st1 hav1 hp1
    refine ⟨st2, ?_, by rw [hstore2, hstore1], by rw [hout2, hout1]⟩
    show (processHost cfg now msg h st).bind (processHosts cfg now msg hs) = .ok st2
    rw [heq1]
    exact heq2

lemma repeatProcess_sub (cfg : Config) (now : Int) (msg : Message) (host : String)
    (h1 : 0 < FindNb cfg host)
    (h2 : (FindNb cfg host : Int) < cfg.DetectionThreshold) :
    ∀ (n : Nat) (st st' : CState), repeatProcess cfg now msg host n st = .ok st' →
      st'.store = st.store ∧ st'.stdout = st.stdout ∧
      st'.debugLog = st.debugLog ++ List.replicate n (debug_line msg host) := by
  intro n
  induction n with
  | zero =>
    intro st st' hrun
    cases hrun
    simp
  | succ n ih =>
    intro st st' hrun
    have hstep := processHost_sub cfg now msg host st h1 h2
    have : repeatProcess cfg now msg host (n + 1) st =
        repeatProcess cfg now msg host n
          { st with debugLog := st.debugLog ++ [debug_line msg host] } := by
      show (processHost cfg now msg host st).bind
        (repeatProcess cfg now msg host n) = _
      rw [hstep]
      rfl
    rw [this] at hrun
    obtain ⟨hs2, ho2, hd2⟩ := ih _ st' hrun
    refine ⟨hs2, ho2, ?_⟩
    rw [hd2]
    simp [List.replicate_succ]

lemma dedup_replicate_succ {α : Type} [DecidableEq α] (a : α) :
    ∀ n : Nat, (List.replicate (n + 1) a).dedup = [a] := by
  intro n
  induction n with
  | zero => simp
  | succ n ih =>
    rw [List.replicate_succ, List.dedup_cons_of_mem (by simp), ih]

/-- A certificate-update event for the domains `paypal.com` and `example.com`. -/
def msgA2 : Message :=
  { message_type := "certificate_update"
    data := leaf0 (some ["paypal.com", "example.com"]) }

/-- A certificate-update event for the single domain `example.com`. -/
def msgEx : Message :=
  { message_type := "certificate_update", data := leaf0 (some ["example.com"]) }

/-! The claims. -/

/-- Claim C1: at most one DetectionRecord per domain is ever inserted.
First conjunct: if processing the hostname yields a full detection but a
record for it already exists, `processHost` is a complete no-op (no insert,
no operator-visible line).  Second conjunct: re-delivering a whole
certificate-update event all of whose full-detection domains already have
records leaves the store and the operator-visible output unchanged.  Third
conjunct: `processHost` preserves distinctness of the stored domains, so a
store whose domains are pairwise distinct never acquires a duplicate. -/
theorem C1_dedup_idempotent (cfg : Config) (now : Int) (msg : Message)
    (host : String) (st : CState) :
    (st.store.available = true →
      host ∈ st.store.records.map DetectionRecord.domain →
      (FindNb cfg host : Int) ≥ cfg.DetectionThreshold →
      is_blacklisted cfg host = false →
      processHost cfg now msg host st = .ok st) ∧
    (∀ (ds : List String) (st' : CState),
      msg.message_type = "certificate_update" →
      msg.data.all_domains = some ds →
      st.store.available = true →
      (∀ d ∈ ds, (FindNb cfg d : Int) ≥ cfg.DetectionThreshold →
        is_blacklisted cfg d = false →
        d ∈ st.store.records.map DetectionRecord.domain) →
      print_callback cfg now msg st = .ok st' →
      st'.store = st.store ∧ st'.stdout = st.stdout) ∧
    (∀ st' : CState,
      (st.store.records.map DetectionRecord.domain).Nodup →
      processHost cfg now msg host st = .ok st' →
      (st'.store.records.map DetectionRecord.domain).Nodup) := by
  refine ⟨?_, ?_, ?_⟩
  · intro hav hmem hge hbl
    rw [processHost_full cfg now msg host st hbl hge]
    exact storeAndPrint_present now msg host st hav hmem
  · intro ds st' hcu hds hav hp hrun
    obtain ⟨st'', heq, hs, ho⟩ := processHosts_preserve cfg now msg ds st hav hp
    rw [print_callback_cert cfg now msg st ds hcu hds, heq] at hrun
    cases hrun
    exact ⟨hs, ho⟩
  · intro st' hnd hrun
    unfold processHost at hrun
    split_ifs at hrun with h1 h2 h3
    · cases hrun; exact hnd
    · by_cases hav : st.store.available = true
      · by_cases hmem : host ∈ st.store.records.map DetectionRecord.domain
        · rw [storeAndPrint_present now msg host st hav hmem] at hrun
          cases hrun; exact hnd
        · rw [storeAndPrint_absent now msg host st hav hmem] at hrun
          cases hrun
          simp only [List.map_append, detection_record, List.map_cons, List.map_nil]
          rw [List.nodup_append]
          refine ⟨hnd, List.nodup_singleton _, ?_⟩
          intro a ha hb
          simp only [List.mem_singleton] at hb
          exact hmem (hb ▸ ha)
      · rw [storeAndPrint_unavailable now msg host st (by simpa using hav)] at hrun
        cases hrun
    · cases hrun; exact hnd
    · cases hrun; exact hnd

/-- Witness for C1 at a concrete input: the record for `paypal.com` already
exists in `stR`, the hostname is a full detection under `cfgA`, and
re-processing it changes nothing. -/
theorem C1_witness : processHost cfgA 0 msgA "paypal.com" stR = .ok stR :=
  (C1_dedup_idempotent cfgA 0 msgA "paypal.com" stR).1 (by decide) (by decide)
    (by decide) (by decide)

/-- Claim C2 counterexample: with the storage backend unavailable, the store
lookup failure is NOT caught anywhere in `print_callback` — the exception
escapes the per-event callback (contradicting "no exception arising while
processing one event escapes the event-handling callback"). -/
theorem C2_counterexample :
    print_callback cfgA 0 msgA stU = .error .storeError := rfl

/-- Claim C2 as amended: a dedup-store failure while processing an event
propagates out of `print_callback` uncaught (the code has no per-event
try/except; the only handler is the blanket catch in `main` around the whole
listen loop). -/
theorem C2_store_failure_escapes (cfg : Config) (now : Int) (msg : Message)
    (st : CState) (host : String) (rest : List String)
    (hcu : msg.message_type = "certificate_update")
    (hds : msg.data.all_domains = some (host :: rest))
    (hav : st.store.available = false)
    (hbl : is_blacklisted cfg host = false)
    (hge : (FindNb cfg host : Int) ≥ cfg.DetectionThreshold) :
    print_callback cfg now msg st = .error .storeError := by
  rw [print_callback_cert cfg now msg st (host :: rest) hcu hds]
  show (processHost cfg now msg host st).bind (processHosts cfg now msg rest) =
    .error .storeError
  rw [processHost_full cfg now msg host st hbl hge,
    storeAndPrint_unavailable now msg host st hav]
  rfl

/-- Witness for C2's amended theorem at a concrete input. -/
theorem C2_witness : print_callback cfgA 0 msgA2 stU = .error .storeError :=
  C2_store_failure_escapes cfgA 0 msgA2 stU "paypal.com" ["example.com"] rfl rfl
    (by decide) (by decide) (by decide)

/-- Claim C3: the ordered classification rules.  Blacklisted and at/above
threshold: skipped entirely (no record, no output).  At/above threshold and
not blacklisted: the store branch runs.  Strictly between 0 and the
threshold: exactly one diagnostic line, REGARDLESS of the blacklist flag —
in particular a blacklisted sub-threshold hostname is still a partial
detection. -/
theorem C3_ordered_classification (cfg : Config) (now : Int) (msg : Message)
    (host : String) (st : CState) :
    (is_blacklisted cfg host = true →
      (FindNb cfg host : Int) ≥ cfg.DetectionThreshold →
      processHost cfg now msg host st = .ok st) ∧
    ((FindNb cfg host : Int) ≥ cfg.DetectionThreshold →
      is_blacklisted cfg host = false →
      processHost cfg now msg host st = storeAndPrint now msg host st) ∧
    (0 < FindNb cfg host →
      (FindNb cfg host : Int) < cfg.DetectionThreshold →
      processHost cfg now msg host st =
        .ok { st with debugLog := st.debugLog ++ [debug_line msg host] }) := by
  refine ⟨?_, ?_, ?_⟩
  · intro hbl hge
    exact processHost_blacklist_full cfg now msg host st hbl hge
  · intro hge hbl
    exact processHost_full cfg now msg host st hbl hge
  · intro h1 h2
    exact processHost_sub cfg now msg host st h1 h2

/-- Witness for C3 at concrete inputs: `badpay.com` is blacklisted (matches
`bad`) and at threshold under `cfgB`, so it is skipped; under `cfgB2`
(threshold 2) the same blacklisted hostname has one match and is still a
partial detection, writing a debug line. -/
theorem C3_witness :
    processHost cfgB 0 msgA "badpay.com" st0 = .ok st0 ∧
    processHost cfgB2 0 msgA "badpay.com" st0 =
      .ok { st0 with debugLog := st0.debugLog ++ [debug_line msgA "badpay.com"] } :=
  ⟨(C3_ordered_classification cfgB 0 msgA "badpay.com" st0).1 (by decide) (by decide),
   (C3_ordered_classification cfgB2 0 msgA "badpay.com" st0).2.2 (by decide) (by decide)⟩

/-- Claim C4 counterexample: with threshold 2 and search pattern `paypal`,
the hostname `secure-paypal-paypal-login.com` scores a DISTINCT match count
of 1, not 2 (`len(set(...))` collapses the two identical `paypal` hits), so
the event produces no DetectionRecord and no operator-visible line — only a
debug-log line. -/
theorem C4_counterexample :
    FindNb cfg4 "secure-paypal-paypal-login.com" = 1 ∧
    print_callback cfg4 0 msg4 st0 =
      .ok { store := { records := [], available := true }
            stdout := []
            debugLog := [debug_line msg4 "secure-paypal-paypal-login.com"] } :=
  ⟨by decide, rfl⟩

/-- Claim C4 as amended: `re.findall` does return two raw occurrences of
`paypal` in the first hostname, but the code counts DISTINCT matches, so
findCount = 1 < 2: the first hostname is a partial detection (one debug-log
line, no record, no stdout line) and the second scores 0 and produces
nothing. -/
theorem C4_scenario_subthreshold :
    re_findall_lit "paypal" "secure-paypal-paypal-login.com" = ["paypal", "paypal"] ∧
    FindNb cfg4 "secure-paypal-paypal-login.com" = 1 ∧
    FindNb cfg4 "example.com" = 0 ∧
    print_callback cfg4 0 msg4 st0 =
      .ok { store := st0.store
            stdout := []
            debugLog := [debug_line msg4 "secure-paypal-paypal-login.com"] } :=
  ⟨by decide, by decide, by decide, rfl⟩

/-- Claim C5 counterexample: an event whose message type is neither
`heartbeat` nor `certificate_update` leaves `all_domains` unassigned, so the
`for` loop raises `UnboundLocalError` out of the callback — it is NOT
treated as zero hostnames. -/
theorem C5_counterexample :
    print_callback cfgA 0 msgOther st0 = .error .unboundLocal := rfl

/-- Claim C5 as amended: an unexpected event shape raises out of the
callback instead of being treated as empty — an unrecognised message type
hits the unassigned `all_domains` local (`UnboundLocalError`), and a
certificate-update event missing the domain-list field raises `KeyError`. -/
theorem C5_unexpected_shape_raises (cfg : Config) (now : Int) (msg : Message)
    (st : CState) :
    (msg.message_type ≠ "heartbeat" → msg.message_type ≠ "certificate_update" →
      print_callback cfg now msg st = .error .unboundLocal) ∧
    (msg.message_type = "certificate_update" → msg.data.all_domains = none →
      print_callback cfg now msg st = .error .keyError) := by
  constructor
  · intro h1 h2
    unfold print_callback
    rw [if_neg h1, if_neg h2]
  · intro hcu hds
    unfold print_callback
    rw [if_neg (by rw [hcu]; decide), if_pos hcu, hds]

/-- Witness for C5's amended theorem at concrete inputs. -/
theorem C5_witness :
    print_callback cfg4 0 msgOther stR = .error .unboundLocal ∧
    print_callback cfg4 0 msgNoDomains stR = .error .keyError :=
  ⟨(C5_unexpected_shape_raises cfg4 0 msgOther stR).1 (by decide) (by decide),
   (C5_unexpected_shape_raises cfg4 0 msgNoDomains stR).2 rfl rfl⟩

/-- Claim C6 counterexample: with an EMPTY search pattern the distinct-match
count is 1 (Python's `re.findall("", host)` returns an empty match at every
position and `set` collapses them to one), not 0 as the claim states. -/
theorem C6_counterexample :
    (re_findall_lit "" "example.com").dedup.length = 1 := by decide

/-- Claim C6 as amended: the (literal-)pattern match step is total — and an
empty configured search pattern yields a distinct-match count of 1 on every
hostname, not zero; the blacklist pattern is skipped entirely when
unconfigured (empty). -/
theorem C6_empty_pattern_counts_one :
    (∀ host : String, (re_findall_lit "" host).dedup.length = 1) ∧
    (∀ (cfg : Config) (host : String), cfg.BlacklistKeywords = "" →
      is_blacklisted cfg host = false) := by
  constructor
  · intro host
    rw [re_findall_lit, if_pos rfl, dedup_replicate_succ]
    rfl
  · intro cfg host h
    unfold is_blacklisted
    rw [if_pos h]

/-- Witness for C6's amended theorem at concrete inputs. -/
theorem C6_witness :
    (re_findall_lit "" "a").dedup.length = 1 ∧
    is_blacklisted cfg4 "x.com" = false :=
  ⟨C6_empty_pattern_counts_one.1 "a",
   C6_empty_pattern_counts_one.2 cfg4 "x.com" rfl⟩

/-- Claim C7 counterexample: a parsed configuration with detection threshold
0 is NOT rejected — `ConfAnalysis` stores it unchanged, `main` proceeds to
consume the feed, and under it even a hostname with ZERO matches is treated
as a full detection and inserted into the store. -/
theorem C7_counterexample :
    cfgT0.DetectionThreshold = 0 ∧
    ConfAnalysis (Except.ok cfgT0) = some cfgT0 ∧
    mainStartsConsuming (Except.ok cfgT0) = true ∧
    FindNb cfgT0 "example.com" = 0 ∧
    print_callback cfgT0 0 msgEx st0 =
      .ok { store := { records := [detection_record 0 msgEx "example.com"]
                       available := true }
            stdout := [print_line 0 msgEx "example.com"]
            debugLog := [] } :=
  ⟨rfl, rfl, rfl, by decide, rfl⟩

/-- Claim C7 as amended: nothing in the repository validates the detection
threshold.  `ConfAnalysis` copies every successfully parsed configuration —
including one with a non-positive threshold — into the globals unchanged,
and `main` begins consuming the feed whenever the parse succeeded and the
log type is supported; only a parser failure leaves the globals unset. -/
theorem C7_no_threshold_validation (c : Config) :
    ConfAnalysis (Except.ok c) = some c ∧
    (c.LogType = "file" ∨ c.LogType = "syslog" →
      mainStartsConsuming (Except.ok c) = true) ∧
    (∀ e : String, ConfAnalysis (Except.error e) = none) := by
  refine ⟨rfl, ?_, fun e => rfl⟩
  intro h
  unfold mainStartsConsuming ConfAnalysis
  rcases h with h | h <;> simp [h]

/-- Witness for C7's amended theorem at a concrete input. -/
theorem C7_witness :
    ConfAnalysis (Except.ok cfgT0) = some cfgT0 ∧
    mainStartsConsuming (Except.ok cfgT0) = true :=
  ⟨(C7_no_threshold_validation cfgT0).1,
   (C7_no_threshold_validation cfgT0).2.1 (Or.inl rfl)⟩

/-- Claim C8: a hostname whose distinct-match count lies strictly between 0
and the threshold writes exactly one diagnostic line and nothing else: the
store is not even looked up (the equation holds whatever the availability
flag is) and the operator-visible channel is untouched; iterating the
delivery `n` times leaves store and stdout unchanged and appends exactly
`n` diagnostic lines. -/
theorem C8_subthreshold_frame (cfg : Config) (now : Int) (msg : Message)
    (host : String) (st : CState)
    (h1 : 0 < FindNb cfg host)
    (h2 : (FindNb cfg host : Int) < cfg.DetectionThreshold) :
    processHost cfg now msg host st =
      .ok { st with debugLog := st.debugLog ++ [debug_line msg host] } ∧
    (∀ (n : Nat) (st' : CState),
      repeatProcess cfg now msg host n st = .ok st' →
      st'.store = st.store ∧ st'.stdout = st.stdout ∧
      st'.debugLog = st.debugLog ++ List.replicate n (debug_line msg host)) :=
  ⟨processHost_sub cfg now msg host st h1 h2,
   fun n st' hrun => repeatProcess_sub cfg now msg host h1 h2 n st st' hrun⟩

/-- Witness for C8 at a concrete input: `paypal-help.com` has one distinct
match under threshold 2; note the state used has an UNAVAILABLE store, so
the equation also certifies that the store is never consulted. -/
theorem C8_witness :
    processHost cfg4 0 msgA "paypal-help.com" stU =
      .ok { stU with debugLog := stU.debugLog ++ [debug_line msgA "paypal-help.com"] } :=
  (C8_subthreshold_frame cfg4 0 msgA "paypal-help.com" stU (by decide) (by decide)).1

/-- Claim C9: a heartbeat event returns immediately: no classification, no
exception, and the returned state is the input state — store, stdout and
debug log all unchanged. -/
theorem C9_heartbeat_noop (cfg : Config) (now : Int) (msg : Message)
    (st : CState) (h : msg.message_type = "heartbeat") :
    print_callback cfg now msg st = .ok st := by
  unfold print_callback
  rw [if_pos h]

/-- Witness for C9 at a concrete input. -/
theorem C9_witness : print_callback cfgA 0 msgHb stR = .ok stR :=
  C9_heartbeat_noop cfgA 0 msgHb stR rfl

/-- Claim C10: for a freshly inserted full detection, the record stored in
the table takes its issuer from the certificate SUBJECT aggregated string,
while the operator-visible line printed for the very same detection takes
its issuer from the certificate ISSUER aggregated string — two different
source fields of the event. -/
theorem C10_issuer_source_fields (cfg : Config) (now : Int) (msg : Message)
    (host : String) (st : CState)
    (hav : st.store.available = true)
    (habs : host ∉ st.store.records.map DetectionRecord.domain)
    (hge : (FindNb cfg host : Int) ≥ cfg.DetectionThreshold)
    (hbl : is_blacklisted cfg host = false) :
    processHost cfg now msg host st =
      .ok { st with
            store := { st.store with
                       records := st.store.records ++ [detection_record now msg host] }
            stdout := st.stdout ++ [print_line now msg host] } ∧
    (detection_record now msg host).issuer = msg.data.subject_aggregated ∧
    (print_line now msg host).issuer = msg.data.issuer_aggregated := by
  refine ⟨?_, rfl, rfl⟩
  rw [processHost_full cfg now msg host st hbl hge]
  exact storeAndPrint_absent now msg host st hav habs

/-- Witness for C10 at a concrete input: the inserted record's issuer is the
subject aggregated string while the printed line's issuer is the issuer
aggregated string. -/
theorem C10_witness :
    processHost cfgA 0 msgA "paypal.com" st0 =
      .ok { st0 with
            store := { st0.store with
                       records := st0.store.records ++ [detection_record 0 msgA "paypal.com"] }
            stdout := st0.stdout ++ [print_line 0 msgA "paypal.com"] } ∧
    (detection_record 0 msgA "paypal.com").issuer = "/CN=x.com" ∧
    (print_line 0 msgA "paypal.com").issuer = "/C=US/O=CA/CN=Issuing CA" :=
  C10_issuer_source_fields cfgA 0 msgA "paypal.com" st0 (by decide) (by decide)
    (by decide) (by decide)

end CertStreamMonitor
